import Mathlib

/-!
Verification of the spectral compressor editor
(`plugins/spectral_compressor/src/editor.rs`).

The Rust source builds a vizia widget tree.  We embed it shallowly:

* widget constructors (`Label::new`, `VStack::new`, `HStack::new`, ...) become
  constructors of an inductive `Widget` tree; the builder-method chains
  (`.width(..)`, `.font_size(..)`, ...) become a `List Modifier` attached to
  the node, in call order;
* the per-parameter closures passed to `GenericUi::new_custom` become
  functions `Param → Except String Widget`; a Rust panic (`.expect(..)`)
  becomes `Except.error` with the panic message;
* `GenericUi::new`/`GenericUi::draw_widget` live in `nih_plug_vizia`
  (outside the given sources), so they stay abstract: dedicated `Widget`
  constructors recording exactly which parameter object and group handle
  were delegated to the default dispatcher;
* the editor window state (`ViziaState`, also outside the given sources) is
  modelled from the spec, see `ViziaState` below.

Floating-point literals in the source (`Pixels(330.0)`, font sizes, ...) are
all integral constants that are only stored, never computed with, so they are
embedded as `Int`/`Nat`.
-/

namespace SCEditor

/-- A parameter descriptor as seen by the editor: the stable id and the full
display name (`param_ptr.name()` in the source). -/
structure Param where
  name : String
  id : String
deriving DecidableEq, Repr

/-- A parameter group handle, as captured by the rendering closures
(`Data::params.map(|p| p.compressors.upwards.clone())` etc.): the ordered
parameters of the subgroup. -/
abbrev ParamGroup := List Param

/-- Modelled from the spec: the plugin's parameter object
(`SpectralCompressorParams`, defined outside the given sources).  The editor
only uses its four subgroups: `global`, `threshold`, `compressors.upwards`
and `compressors.downwards`, each an ordered collection of parameters. -/
structure SpectralCompressorParams where
  global : ParamGroup
  threshold : ParamGroup
  upwards : ParamGroup
  downwards : ParamGroup
deriving DecidableEq, Repr

/-- Vizia `Units` as used by the source: `Pixels`, `Stretch`, `Auto`. -/
inductive Units where
  | pixels (n : Int)
  | stretch (n : Int)
  | auto
deriving DecidableEq, Repr

/-- An RGB color (`Color::rgb`). -/
structure Color where
  r : Nat
  g : Nat
  b : Nat
deriving DecidableEq, Repr

/-- `const DARKER_GRAY: Color = Color::rgb(0x69, 0x69, 0x69)`. -/
def DARKER_GRAY : Color := ⟨0x69, 0x69, 0x69⟩

/-- `const COLUMN_WIDTH: Units = Pixels(330.0)` — the hardcoded column width
faking the 4x4 grid. -/
def COLUMN_WIDTH : Units := Units.pixels 330

/-- A builder-method modifier applied to a widget, one constructor per
builder method the source uses.  `onMouseDown` records that the title-click
handler is attached; the handler itself is modelled by
`titleOnMouseDown` below. -/
inductive Modifier where
  | width (u : Units)
  | height (u : Units)
  | left (u : Units)
  | right (u : Units)
  | top (u : Units)
  | bottom (u : Units)
  | fontFamily (names : List String)
  | fontSize (n : Nat)
  | color (c : Color)
  | rowBetween (u : Units)
  | childLeft (u : Units)
  | childRight (u : Units)
  | cssClass (s : String)
  | onMouseDown
deriving DecidableEq, Repr

/-- The widget tree the editor builds.  `genericUi group` is
`GenericUi::new` (default dispatch over a whole group),
`genericUiCustom group rows` is `GenericUi::new_custom` with the rendered
per-parameter rows, and `drawWidget group p` is the delegated
`GenericUi::draw_widget` call for one parameter — the default widget
dispatcher, kept abstract because it lives outside the given sources. -/
inductive Widget where
  | label (text : String) (mods : List Modifier)
  | vstack (children : List Widget) (mods : List Modifier)
  | hstack (children : List Widget) (mods : List Modifier)
  | resizeHandle
  | genericUi (group : ParamGroup)
  | genericUiCustom (group : ParamGroup) (rows : List Widget)
  | drawWidget (group : ParamGroup) (p : Param)

/-- Rust `str::strip_prefix`: `some` of the suffix after `pre` when `s`
starts with `pre`, otherwise `none`. -/
def stripPre (pre s : String) : Option String :=
  if pre.data.isPrefixOf s.data then some (String.mk (s.data.drop pre.data.length))
  else none

/-- Rust `Option::expect`: the value, or a panic (modelled as
`Except.error`) carrying the message. -/
def expect (o : Option α) (msg : String) : Except String α :=
  match o with
  | some a => Except.ok a
  | none => Except.error msg

/-- The panic message of the two `.expect(..)` calls in the source. -/
def prefixPanicMsg : String := "Expected parameter name prefix, this is a bug"

/-- The closure passed to `GenericUi::new_custom` in the "Upwards" column:
an `HStack` with class "row" holding a label with the parameter name minus
the "Upwards " prefix (panicking if the prefix is absent) followed by the
delegated `GenericUi::draw_widget` call. -/
def upwardsRenderFn (group : ParamGroup) (p : Param) : Except String Widget :=
  match expect (stripPre "Upwards " p.name) prefixPanicMsg with
  | Except.ok stripped =>
      Except.ok (Widget.hstack
        [Widget.label stripped [Modifier.cssClass "label"],
         Widget.drawWidget group p]
        [Modifier.cssClass "row"])
  | Except.error e => Except.error e

/-- The closure passed to `GenericUi::new_custom` in the "Downwards" column:
identical to the upwards one except for the "Downwards " prefix and the
captured group. -/
def downwardsRenderFn (group : ParamGroup) (p : Param) : Except String Widget :=
  match expect (stripPre "Downwards " p.name) prefixPanicMsg with
  | Except.ok stripped =>
      Except.ok (Widget.hstack
        [Widget.label stripped [Modifier.cssClass "label"],
         Widget.drawWidget group p]
        [Modifier.cssClass "row"])
  | Except.error e => Except.error e

/-- The common shape of the two custom render closures, parametric in the
prefix to strip and the captured group. -/
def rowRenderer (pre : String) (group : ParamGroup) (p : Param) : Except String Widget :=
  match expect (stripPre pre p.name) prefixPanicMsg with
  | Except.ok stripped =>
      Except.ok (Widget.hstack
        [Widget.label stripped [Modifier.cssClass "label"],
         Widget.drawWidget group p]
        [Modifier.cssClass "row"])
  | Except.error e => Except.error e

/-- The parameter object a rendered override row delegates to the default
widget dispatcher, when the row has the label-then-control shape. -/
def controlParam (w : Widget) : Option Param :=
  match w with
  | Widget.hstack [_, Widget.drawWidget _ p] _ => some p
  | _ => none

/-- Modelled from the spec: the font family name registered by the asset
layer (`assets::NOTO_SANS_THIN`, outside the given sources); the concrete
value is irrelevant to every claim. -/
def NOTO_SANS_THIN : String := "Noto Sans Thin"

/-- Modelled from the spec: plugin metadata `SpectralCompressor::VERSION`
(defined outside the given sources); the concrete value is irrelevant to
every claim. -/
def SpectralCompressor_VERSION : String := "0.0.0"

/-- The `on_mouse_down` handler of the title label: it calls
`open::that(SpectralCompressor::URL)` and, when the `debug` cfg flag is set
and the call failed, emits a debug-assertion log message; it never fails
itself (the result of `open::that` is otherwise discarded).  `cfgDebug` is
the build-time `cfg!(debug)` flag, `openResult` the outcome of `open::that`,
and the returned list holds the emitted log messages. -/
def titleOnMouseDown (cfgDebug : Bool) (openResult : Except String Unit) :
    Except String (List String) :=
  Except.ok
    (match cfgDebug, openResult with
     | true, Except.error e => ["Failed to open web browser: " ++ e]
     | _, _ => [])

/-- The "Spectral Compressor" title label with the click handler attached. -/
def titleLabel : Widget :=
  Widget.label "Spectral Compressor"
    [Modifier.fontFamily [NOTO_SANS_THIN], Modifier.fontSize 30,
     Modifier.onMouseDown]

/-- The version label next to the title. -/
def versionLabel : Widget :=
  Widget.label SpectralCompressor_VERSION
    [Modifier.color DARKER_GRAY, Modifier.top (Units.stretch 1),
     Modifier.bottom (Units.pixels 4), Modifier.left (Units.pixels 2)]

/-- The `HStack` holding the title and version labels. -/
def titleRow : Widget :=
  Widget.hstack [titleLabel, versionLabel]
    [Modifier.height (Units.pixels 30), Modifier.right (Units.pixels (-17)),
     Modifier.bottom (Units.pixels (-5)), Modifier.top (Units.pixels 10)]

/-- The disclaimer text in the "Threshold" column (the source's `\`-escaped
literal collapses to single spaces; the "overal" typo is the source's). -/
def disclaimerText : String :=
  "Parameter ranges and overal gain staging are still subject to change. If you use this in a project, make sure to bounce things to audio just in case they\x27ll sound different later."

/-- The disclaimer label under the threshold parameters. -/
def disclaimerLabel : Widget :=
  Widget.label disclaimerText
    [Modifier.fontSize 11, Modifier.left (Units.pixels 15),
     Modifier.right (Units.pixels 8), Modifier.bottom (Units.pixels 20),
     Modifier.width (Units.stretch 1)]

/-- The title label `make_column` places at the top of each column. -/
def columnTitleLabel (title : String) : Widget :=
  Widget.label title
    [Modifier.fontFamily [NOTO_SANS_THIN], Modifier.fontSize 23,
     Modifier.left (Units.stretch 1), Modifier.right (Units.pixels 7),
     Modifier.bottom (Units.pixels (-10))]

/-- The node `make_column` builds: a `VStack` of width `COLUMN_WIDTH` and
height `Auto` with the title label stacked on top of the contents. -/
def columnNode (title : String) (body : List Widget) : Widget :=
  Widget.vstack (columnTitleLabel title :: body)
    [Modifier.width COLUMN_WIDTH, Modifier.height Units.auto]

/-- `fn make_column(cx, title, contents)`: builds `columnNode` from the
widgets added by `contents`; a panic inside `contents` propagates. -/
def make_column (title : String) (contents : Except String (List Widget)) :
    Except String Widget :=
  match contents with
  | Except.ok body => Except.ok (columnNode title body)
  | Except.error e => Except.error e

/-- Modelled from the spec: the per-parameter traversal of
`GenericUi::new_custom` — each parameter of the group is rendered in group
order by the supplied render function; the first panic propagates. -/
def renderRows (f : Param → Except String Widget) :
    ParamGroup → Except String (List Widget)
  | [] => Except.ok []
  | p :: ps =>
    match f p with
    | Except.error e => Except.error e
    | Except.ok w =>
      match renderRows f ps with
      | Except.error e => Except.error e
      | Except.ok ws => Except.ok (w :: ws)

/-- Modelled from the spec: `GenericUi::new_custom` (defined in
`nih_plug_vizia`, outside the given sources) renders each parameter of the
group through the supplied render function and collects the rows. -/
def GenericUi_new_custom (group : ParamGroup)
    (f : Param → Except String Widget) : Except String Widget :=
  match renderRows f group with
  | Except.ok rows => Except.ok (Widget.genericUiCustom group rows)
  | Except.error e => Except.error e

/-- The modifiers shared by the two content rows
(`.height(Auto).width(Stretch(1.0))`). -/
def contentRowMods : List Modifier :=
  [Modifier.height Units.auto, Modifier.width (Units.stretch 1)]

/-- The modifiers of the root `VStack`
(`.row_between(Pixels(15.0)).child_left(Stretch(1.0)).child_right(Stretch(1.0))`). -/
def rootMods : List Modifier :=
  [Modifier.rowBetween (Units.pixels 15), Modifier.childLeft (Units.stretch 1),
   Modifier.childRight (Units.stretch 1)]

/-- `fn create(params, editor_state)`: the widget tree the editor body
builds — the resize handle, then a root `VStack` holding the title row and
two `HStack` rows of `make_column`s: "Globals" and "Threshold" (default
`GenericUi`), then "Upwards" and "Downwards" (custom prefix-stripping
renderers).  A panic in a render closure propagates as `Except.error`.
Font-asset registration and the `Data` model build are side-effect-only and
leave no trace in the tree. -/
def create (params : SpectralCompressorParams) : Except String (List Widget) := do
  let globalsCol ← make_column "Globals" (Except.ok [Widget.genericUi params.global])
  let thresholdCol ← make_column "Threshold"
    (Except.ok [Widget.genericUi params.threshold, disclaimerLabel])
  let upwardsCol ← make_column "Upwards"
    (match GenericUi_new_custom params.upwards (upwardsRenderFn params.upwards) with
     | Except.ok ui => Except.ok [ui]
     | Except.error e => Except.error e)
  let downwardsCol ← make_column "Downwards"
    (match GenericUi_new_custom params.downwards (downwardsRenderFn params.downwards) with
     | Except.ok ui => Except.ok [ui]
     | Except.error e => Except.error e)
  pure [Widget.resizeHandle,
    Widget.vstack
      [titleRow,
       Widget.hstack [globalsCol, thresholdCol] contentRowMods,
       Widget.hstack [upwardsCol, downwardsCol] contentRowMods]
      rootMods]

/-- The widget tree `create params` yields when the upwards rows rendered to
`upRows` and the downwards rows to `dnRows`. -/
def createdTree (params : SpectralCompressorParams)
    (upRows dnRows : List Widget) : List Widget :=
  [Widget.resizeHandle,
   Widget.vstack
     [titleRow,
      Widget.hstack
        [columnNode "Globals" [Widget.genericUi params.global],
         columnNode "Threshold" [Widget.genericUi params.threshold, disclaimerLabel]]
        contentRowMods,
      Widget.hstack
        [columnNode "Upwards" [Widget.genericUiCustom params.upwards upRows],
         columnNode "Downwards" [Widget.genericUiCustom params.downwards dnRows]]
        contentRowMods]
     rootMods]

/-- The four group columns of a created tree, in display order (first row
then second row). -/
def columnsOf (t : List Widget) : List Widget :=
  match t with
  | [_, Widget.vstack [_, Widget.hstack r1 _, Widget.hstack r2 _] _] => r1 ++ r2
  | _ => []

/-- Modelled from the spec: `EditorWindowState` (realized by `ViziaState`
in `nih_plug_vizia`, outside the given sources): the persisted editor
window geometry `{ width, height }`, each an unsigned 32-bit pixel size. -/
structure ViziaState where
  width : Nat
  height : Nat
deriving DecidableEq, Repr

/-- Modelled from the spec: `ViziaState::new(size_fn)` builds the state from
the initial-size callback. -/
def ViziaState.new (size_fn : Unit → Nat × Nat) : ViziaState :=
  ⟨(size_fn ()).1, (size_fn ()).2⟩

/-- `fn default_state()`: `ViziaState::new(|| (680, 535))`.  The `Unit`
argument stands for one call of the function. -/
def default_state (_call : Unit) : ViziaState :=
  ViziaState.new (fun _ => (680, 535))

/-- Modelled from the spec: one 32-bit size component laid out as four
little-endian bytes of the opaque host payload. -/
def u32ToBytes (n : Nat) : List Nat :=
  [n % 256, n / 256 % 256, n / 65536 % 256, n / 16777216 % 256]

/-- Modelled from the spec: the 32-bit size component read back from four
little-endian payload bytes. -/
def u32FromBytes (a b c d : Nat) : Nat :=
  a + 256 * b + 65536 * c + 16777216 * d

/-- Modelled from the spec: `serialize(state) -> bytes`, the opaque host
payload holding the window geometry. -/
def serialize (s : ViziaState) : List Nat :=
  u32ToBytes s.width ++ u32ToBytes s.height

/-- Modelled from the spec: `restore(bytes) -> State`; a malformed payload
falls back to the default window state rather than failing the editor
open. -/
def restore (bytes : List Nat) : ViziaState :=
  match bytes with
  | [a, b, c, d, e, f, g, h] => ⟨u32FromBytes a b c d, u32FromBytes e f g h⟩
  | _ => default_state ()

/-- A concrete parameter set used to evaluate the embedding on an input:
one parameter per subgroup, the overridden ones following the naming
convention. -/
def sampleParams : SpectralCompressorParams :=
  ⟨[⟨"Output Gain", "og"⟩], [⟨"Threshold Offset", "to"⟩],
   [⟨"Upwards Hi", "uh"⟩], [⟨"Downwards Lo", "dl"⟩]⟩

/-- The row the upwards renderer produces for `sampleParams`. -/
def sampleUpRow : Widget :=
  Widget.hstack
    [Widget.label "Hi" [Modifier.cssClass "label"],
     Widget.drawWidget [⟨"Upwards Hi", "uh"⟩] ⟨"Upwards Hi", "uh"⟩]
    [Modifier.cssClass "row"]

/-- The row the downwards renderer produces for `sampleParams`. -/
def sampleDnRow : Widget :=
  Widget.hstack
    [Widget.label "Lo" [Modifier.cssClass "label"],
     Widget.drawWidget [⟨"Downwards Lo", "dl"⟩] ⟨"Downwards Lo", "dl"⟩]
    [Modifier.cssClass "row"]

-- Basic facts about the string prefix model.

theorem stripPre_append (pre rest : String) :
    stripPre pre (pre ++ rest) = some rest := by
  have hdata : (pre ++ rest).data = pre.data ++ rest.data := String.data_append pre rest
  have hpre : pre.data.isPrefixOf (pre.data ++ rest.data) = true := by
    rw [List.isPrefixOf_iff_prefix]
    exact List.prefix_append pre.data rest.data
  simp only [stripPre, hdata, hpre, if_pos, List.drop_left]

theorem stripPre_none (pre s : String) (h : pre.data.isPrefixOf s.data = false) :
    stripPre pre s = none := by
  simp only [stripPre, h]
  rfl

/-- Inversion for `create`: a successful build means both custom-rendering
traversals succeeded and the tree is `createdTree` of their rows. -/
theorem create_ok_inv (params : SpectralCompressorParams) (t : List Widget)
    (h : create params = Except.ok t) :
    ∃ upRows dnRows,
      renderRows (upwardsRenderFn params.upwards) params.upwards = Except.ok upRows ∧
      renderRows (downwardsRenderFn params.downwards) params.downwards = Except.ok dnRows ∧
      t = createdTree params upRows dnRows := by
  cases hu : renderRows (upwardsRenderFn params.upwards) params.upwards with
  | error e =>
      exfalso
      simp [create, make_column, GenericUi_new_custom, hu, bind, Except.bind,
        pure, Except.pure] at h
  | ok upRows =>
      cases hd : renderRows (downwardsRenderFn params.downwards) params.downwards with
      | error e =>
          exfalso
          simp [create, make_column, GenericUi_new_custom, hu, hd, bind,
            Except.bind, pure, Except.pure] at h
      | ok dnRows =>
          refine ⟨upRows, dnRows, rfl, rfl, ?_⟩
          simp [create, make_column, GenericUi_new_custom, hu, hd, bind,
            Except.bind, pure, Except.pure, createdTree, columnNode] at h
          exact h.symm

/-- Claim C1: for a parameter rendered in the "Upwards" (resp. "Downwards")
column whose name does not begin with "Upwards " (resp. "Downwards "), the
override renderer panics (modelled as `Except.error` with the source's
`.expect` message) instead of rendering any label; it never falls back to
the unstripped name. -/
theorem claim_C1 (group : ParamGroup) (p : Param) :
    ("Upwards ".data.isPrefixOf p.name.data = false →
      upwardsRenderFn group p = Except.error prefixPanicMsg) ∧
    ("Downwards ".data.isPrefixOf p.name.data = false →
      downwardsRenderFn group p = Except.error prefixPanicMsg) := by
  constructor <;> intro h <;>
    simp [upwardsRenderFn, downwardsRenderFn, expect, stripPre_none _ _ h]

/-- Witness for C1 at the concrete parameter named "Threshold", which
carries neither prefix. -/
theorem claim_C1_witness :
    ("Upwards ".data.isPrefixOf "Threshold".data = false ∧
      upwardsRenderFn [] ⟨"Threshold", "tr"⟩ = Except.error prefixPanicMsg) ∧
    ("Downwards ".data.isPrefixOf "Threshold".data = false ∧
      downwardsRenderFn [] ⟨"Threshold", "tr"⟩ = Except.error prefixPanicMsg) :=
  ⟨⟨by decide, (claim_C1 [] ⟨"Threshold", "tr"⟩).1 (by decide)⟩,
   ⟨by decide, (claim_C1 [] ⟨"Threshold", "tr"⟩).2 (by decide)⟩⟩

/-- Claim C2: for a parameter in the "Upwards" (resp. "Downwards") group
whose full name is the prefix "Upwards " (resp. "Downwards ") followed by
`rest`, the rendered row's label text is exactly `rest` — nothing more
removed or added. -/
theorem claim_C2 (group : ParamGroup) (p : Param) (rest : String) :
    (p.name = "Upwards " ++ rest →
      upwardsRenderFn group p =
        Except.ok (Widget.hstack
          [Widget.label rest [Modifier.cssClass "label"],
           Widget.drawWidget group p]
          [Modifier.cssClass "row"])) ∧
    (p.name = "Downwards " ++ rest →
      downwardsRenderFn group p =
        Except.ok (Widget.hstack
          [Widget.label rest [Modifier.cssClass "label"],
           Widget.drawWidget group p]
          [Modifier.cssClass "row"])) := by
  constructor <;> intro h <;>
    simp [upwardsRenderFn, downwardsRenderFn, h, stripPre_append, expect]

/-- Witness for C2 at the parameters "Upwards Threshold" and
"Downwards Threshold": the rendered labels are exactly "Threshold". -/
theorem claim_C2_witness :
    ((⟨"Upwards Threshold", "ut"⟩ : Param).name = "Upwards " ++ "Threshold" ∧
      upwardsRenderFn [⟨"Upwards Threshold", "ut"⟩] ⟨"Upwards Threshold", "ut"⟩ =
        Except.ok (Widget.hstack
          [Widget.label "Threshold" [Modifier.cssClass "label"],
           Widget.drawWidget [⟨"Upwards Threshold", "ut"⟩] ⟨"Upwards Threshold", "ut"⟩]
          [Modifier.cssClass "row"])) ∧
    ((⟨"Downwards Threshold", "dt"⟩ : Param).name = "Downwards " ++ "Threshold" ∧
      downwardsRenderFn [⟨"Downwards Threshold", "dt"⟩] ⟨"Downwards Threshold", "dt"⟩ =
        Except.ok (Widget.hstack
          [Widget.label "Threshold" [Modifier.cssClass "label"],
           Widget.drawWidget [⟨"Downwards Threshold", "dt"⟩] ⟨"Downwards Threshold", "dt"⟩]
          [Modifier.cssClass "row"])) :=
  ⟨⟨by decide,
    (claim_C2 [⟨"Upwards Threshold", "ut"⟩] ⟨"Upwards Threshold", "ut"⟩ "Threshold").1
      (by decide)⟩,
   ⟨by decide,
    (claim_C2 [⟨"Downwards Threshold", "dt"⟩] ⟨"Downwards Threshold", "dt"⟩ "Threshold").2
      (by decide)⟩⟩

/-- Claim C3: the title-click handler never fails (it always completes with
`Except.ok`, whatever the outcome of the open-link action), with the
`debug` cfg flag unset it logs nothing, and any log it does emit can only
happen with the flag set. -/
theorem claim_C3 (cfgDebug : Bool) (openResult : Except String Unit) :
    (∃ logs, titleOnMouseDown cfgDebug openResult = Except.ok logs) ∧
    (cfgDebug = false → titleOnMouseDown cfgDebug openResult = Except.ok []) ∧
    (∀ logs, titleOnMouseDown cfgDebug openResult = Except.ok logs →
      logs ≠ [] → cfgDebug = true) := by
  refine ⟨⟨_, rfl⟩, ?_, ?_⟩
  · intro h
    subst h
    cases openResult <;> rfl
  · intro logs hlogs hne
    cases cfgDebug with
    | true => rfl
    | false =>
        exfalso
        apply hne
        cases openResult <;> simpa [titleOnMouseDown] using hlogs.symm

/-- Witness for C3: in a non-debug build with a failing open-link action the
handler completes normally and logs nothing. -/
theorem claim_C3_witness :
    titleOnMouseDown false (Except.error "browser missing") = Except.ok [] :=
  (claim_C3 false (Except.error "browser missing")).2.1 rfl

/-- Claim C10: the "Upwards" and "Downwards" override renderers are the one
parametric row renderer instantiated at their prefix string and captured
subgroup, so substituting the prefix and subgroup of one yields the
other. -/
theorem claim_C10 (group : ParamGroup) (p : Param) :
    upwardsRenderFn group p = rowRenderer "Upwards " group p ∧
    downwardsRenderFn group p = rowRenderer "Downwards " group p :=
  ⟨rfl, rfl⟩

/-- Claim C4: restoring the serialized form of any window state whose sides
fit in 32 bits (every state producible by user resize) yields that state
back unchanged. -/
theorem claim_C4 (s : ViziaState)
    (hw : s.width < 4294967296) (hh : s.height < 4294967296) :
    restore (serialize s) = s := by
  cases s with
  | mk w h =>
      simp only [serialize, restore, u32ToBytes, u32FromBytes, List.cons_append,
        List.nil_append, ViziaState.mk.injEq]
      simp only at hw hh
      constructor <;> omega

/-- Witness for C4 at the spec's resize scenario `(900, 600)`. -/
theorem claim_C4_witness :
    ((900 : Nat) < 4294967296 ∧ (600 : Nat) < 4294967296) ∧
    restore (serialize ⟨900, 600⟩) = (⟨900, 600⟩ : ViziaState) :=
  ⟨⟨by norm_num, by norm_num⟩, claim_C4 ⟨900, 600⟩ (by norm_num) (by norm_num)⟩

/-- Claim C5: `default_state()` is the fixed documented default window state
of size (680, 535), the same on every call and independent of any other
input. -/
theorem claim_C5 :
    default_state () = ViziaState.mk 680 535 ∧
    ∀ u : Unit, default_state u = default_state () :=
  ⟨rfl, fun _ => rfl⟩

/-- Claim C8: for a parameter of an overridden group whose name carries the
expected prefix, the override renderer produces exactly a composed row —
some label followed by the delegated `GenericUi::draw_widget` call on the
captured group and that same parameter — and by no other path. -/
theorem claim_C8 (group : ParamGroup) (p : Param) :
    ("Upwards ".data.isPrefixOf p.name.data = true →
      ∃ lbl, upwardsRenderFn group p =
        Except.ok (Widget.hstack
          [Widget.label lbl [Modifier.cssClass "label"],
           Widget.drawWidget group p]
          [Modifier.cssClass "row"])) ∧
    ("Downwards ".data.isPrefixOf p.name.data = true →
      ∃ lbl, downwardsRenderFn group p =
        Except.ok (Widget.hstack
          [Widget.label lbl [Modifier.cssClass "label"],
           Widget.drawWidget group p]
          [Modifier.cssClass "row"])) := by
  constructor <;> intro h
  · refine ⟨String.mk (p.name.data.drop "Upwards ".data.length), ?_⟩
    have hs : stripPre "Upwards " p.name =
        some (String.mk (p.name.data.drop "Upwards ".data.length)) := by
      simp [stripPre, h]
    simp [upwardsRenderFn, hs, expect]
  · refine ⟨String.mk (p.name.data.drop "Downwards ".data.length), ?_⟩
    have hs : stripPre "Downwards " p.name =
        some (String.mk (p.name.data.drop "Downwards ".data.length)) := by
      simp [stripPre, h]
    simp [downwardsRenderFn, hs, expect]

/-- Witness for C8 at the parameters "Upwards Hi" and "Downwards Lo". -/
theorem claim_C8_witness :
    ("Upwards ".data.isPrefixOf "Upwards Hi".data = true ∧
      ∃ lbl, upwardsRenderFn [] ⟨"Upwards Hi", "uh"⟩ =
        Except.ok (Widget.hstack
          [Widget.label lbl [Modifier.cssClass "label"],
           Widget.drawWidget [] ⟨"Upwards Hi", "uh"⟩]
          [Modifier.cssClass "row"])) ∧
    ("Downwards ".data.isPrefixOf "Downwards Lo".data = true ∧
      ∃ lbl, downwardsRenderFn [] ⟨"Downwards Lo", "dl"⟩ =
        Except.ok (Widget.hstack
          [Widget.label lbl [Modifier.cssClass "label"],
           Widget.drawWidget [] ⟨"Downwards Lo", "dl"⟩]
          [Modifier.cssClass "row"])) :=
  ⟨⟨by decide, (claim_C8 [] ⟨"Upwards Hi", "uh"⟩).1 (by decide)⟩,
   ⟨by decide, (claim_C8 [] ⟨"Downwards Lo", "dl"⟩).2 (by decide)⟩⟩

/-- Claim C9: whenever an override renderer succeeds, the parameter object
it hands to the default widget dispatcher is the input parameter itself,
unmodified — the full, prefixed name and the id survive; only the displayed
label changes. -/
theorem claim_C9 (group : ParamGroup) (p : Param) (w : Widget) :
    (upwardsRenderFn group p = Except.ok w → controlParam w = some p) ∧
    (downwardsRenderFn group p = Except.ok w → controlParam w = some p) := by
  constructor <;> intro h
  · cases hs : stripPre "Upwards " p.name with
    | none => simp [upwardsRenderFn, hs, expect] at h
    | some rest =>
        simp [upwardsRenderFn, hs, expect] at h
        subst h
        rfl
  · cases hs : stripPre "Downwards " p.name with
    | none => simp [downwardsRenderFn, hs, expect] at h
    | some rest =>
        simp [downwardsRenderFn, hs, expect] at h
        subst h
        rfl

/-- Witness for C9 at the parameters "Upwards Hi" and "Downwards Lo": the
delegated control is bound to the untouched descriptor. -/
theorem claim_C9_witness :
    (upwardsRenderFn [] ⟨"Upwards Hi", "uh"⟩ =
        Except.ok (Widget.hstack
          [Widget.label "Hi" [Modifier.cssClass "label"],
           Widget.drawWidget [] ⟨"Upwards Hi", "uh"⟩]
          [Modifier.cssClass "row"]) ∧
      controlParam (Widget.hstack
          [Widget.label "Hi" [Modifier.cssClass "label"],
           Widget.drawWidget [] ⟨"Upwards Hi", "uh"⟩]
          [Modifier.cssClass "row"]) = some ⟨"Upwards Hi", "uh"⟩) ∧
    (downwardsRenderFn [] ⟨"Downwards Lo", "dl"⟩ =
        Except.ok (Widget.hstack
          [Widget.label "Lo" [Modifier.cssClass "label"],
           Widget.drawWidget [] ⟨"Downwards Lo", "dl"⟩]
          [Modifier.cssClass "row"]) ∧
      controlParam (Widget.hstack
          [Widget.label "Lo" [Modifier.cssClass "label"],
           Widget.drawWidget [] ⟨"Downwards Lo", "dl"⟩]
          [Modifier.cssClass "row"]) = some ⟨"Downwards Lo", "dl"⟩) :=
  ⟨⟨rfl, (claim_C9 [] ⟨"Upwards Hi", "uh"⟩ _).1 rfl⟩,
   ⟨rfl, (claim_C9 [] ⟨"Downwards Lo", "dl"⟩ _).2 rfl⟩⟩

/-- Claim C6: in every successfully created tree, each of the four group
columns "Globals", "Threshold", "Upwards", "Downwards" is a `VStack` of the
fixed width of 330 pixels (`COLUMN_WIDTH`) whose first child is the
column's title label, with the column contents stacked beneath it. -/
theorem claim_C6 (params : SpectralCompressorParams) (t : List Widget)
    (h : create params = Except.ok t) :
    ∃ upRows dnRows,
      columnsOf t =
        [Widget.vstack (columnTitleLabel "Globals" ::
             [Widget.genericUi params.global])
           [Modifier.width (Units.pixels 330), Modifier.height Units.auto],
         Widget.vstack (columnTitleLabel "Threshold" ::
             [Widget.genericUi params.threshold, disclaimerLabel])
           [Modifier.width (Units.pixels 330), Modifier.height Units.auto],
         Widget.vstack (columnTitleLabel "Upwards" ::
             [Widget.genericUiCustom params.upwards upRows])
           [Modifier.width (Units.pixels 330), Modifier.height Units.auto],
         Widget.vstack (columnTitleLabel "Downwards" ::
             [Widget.genericUiCustom params.downwards dnRows])
           [Modifier.width (Units.pixels 330), Modifier.height Units.auto]] ∧
      COLUMN_WIDTH = Units.pixels 330 := by
  obtain ⟨upRows, dnRows, hu, hd, ht⟩ := create_ok_inv params t h
  subst ht
  exact ⟨upRows, dnRows, rfl, rfl⟩

/-- Witness for C6 at `sampleParams`. -/
theorem claim_C6_witness :
    create sampleParams =
      Except.ok (createdTree sampleParams [sampleUpRow] [sampleDnRow]) ∧
    (∃ upRows dnRows,
      columnsOf (createdTree sampleParams [sampleUpRow] [sampleDnRow]) =
        [Widget.vstack (columnTitleLabel "Globals" ::
             [Widget.genericUi sampleParams.global])
           [Modifier.width (Units.pixels 330), Modifier.height Units.auto],
         Widget.vstack (columnTitleLabel "Threshold" ::
             [Widget.genericUi sampleParams.threshold, disclaimerLabel])
           [Modifier.width (Units.pixels 330), Modifier.height Units.auto],
         Widget.vstack (columnTitleLabel "Upwards" ::
             [Widget.genericUiCustom sampleParams.upwards upRows])
           [Modifier.width (Units.pixels 330), Modifier.height Units.auto],
         Widget.vstack (columnTitleLabel "Downwards" ::
             [Widget.genericUiCustom sampleParams.downwards dnRows])
           [Modifier.width (Units.pixels 330), Modifier.height Units.auto]] ∧
      COLUMN_WIDTH = Units.pixels 330) :=
  ⟨rfl, claim_C6 sampleParams _ rfl⟩

/-- Claim C7: every successfully created tree consists of the resize handle
and a root `VStack` holding the title row and exactly two content rows of
columns, the first holding "Globals" then "Threshold" and the second
"Upwards" then "Downwards", for every parameter set — the row membership is
static, never computed from the contents. -/
theorem claim_C7 (params : SpectralCompressorParams) (t : List Widget)
    (h : create params = Except.ok t) :
    ∃ gBody tBody upBody dnBody,
      t = [Widget.resizeHandle,
           Widget.vstack
             [titleRow,
              Widget.hstack
                [columnNode "Globals" gBody, columnNode "Threshold" tBody]
                contentRowMods,
              Widget.hstack
                [columnNode "Upwards" upBody, columnNode "Downwards" dnBody]
                contentRowMods]
             rootMods] := by
  obtain ⟨upRows, dnRows, hu, hd, ht⟩ := create_ok_inv params t h
  subst ht
  exact ⟨[Widget.genericUi params.global],
    [Widget.genericUi params.threshold, disclaimerLabel],
    [Widget.genericUiCustom params.upwards upRows],
    [Widget.genericUiCustom params.downwards dnRows], rfl⟩

/-- Witness for C7 at `sampleParams`. -/
theorem claim_C7_witness :
    create sampleParams =
      Except.ok (createdTree sampleParams [sampleUpRow] [sampleDnRow]) ∧
    (∃ gBody tBody upBody dnBody,
      createdTree sampleParams [sampleUpRow] [sampleDnRow] =
        [Widget.resizeHandle,
         Widget.vstack
           [titleRow,
            Widget.hstack
              [columnNode "Globals" gBody, columnNode "Threshold" tBody]
              contentRowMods,
            Widget.hstack
              [columnNode "Upwards" upBody, columnNode "Downwards" dnBody]
              contentRowMods]
           rootMods]) :=
  ⟨rfl, claim_C7 sampleParams _ rfl⟩

end SCEditor
